import Mathlib

/-!
Verification development for the IT-Support-ChatBot core: a shallow
embedding of the intent classifier, escalation handler, workflow
action dispatcher, ticket store, metrics tracker and streaming
orchestrator, together with theorems settling the specification
claims about them.

Conventions of the embedding:
- JavaScript exceptions are modelled with `Except Unit`; a call that can
  throw is represented by an `Except Unit _` parameter supplied at the
  capability boundary.
- JavaScript `String.prototype.includes` is modelled by `strIncludes`
  (substring containment over the character list).
- JavaScript truthiness tests (`!x`, `x || d`) on optional values are
  modelled explicitly: the number `0` and the empty string count as falsy.
- Timestamps (`new Date()`, `NOW()`, `performance.now()`) are modelled
  as natural numbers supplied by the caller; `toLocaleDateString`
  rendering is modelled as decimal rendering of that number.
- The SQL `ORDER BY created_at DESC` of the ticket store is modelled as
  the reverse of insertion order (rows are inserted with monotonically
  non-decreasing `created_at`, and `id` order equals insertion order).
-/

namespace ChatBot

/-! ## Substring containment, the model of JS `String.includes` -/

/-- Auxiliary recursion: does the character list contain `pat` as a
contiguous infix. -/
def includesAux : List Char → List Char → Bool
  | [], pat => pat.isEmpty
  | c :: rest, pat => pat.isPrefixOf (c :: rest) || includesAux rest pat

/-- Model of JavaScript `s.includes(pat)`: substring containment. -/
def strIncludes (s pat : String) : Bool :=
  includesAux s.toList pat.toList

/-- Model of JavaScript `s.toLowerCase()`: per-character lowering over
the character list (the same mapping as `String.toLower`, written so
that it evaluates by kernel reduction). -/
def strToLower (s : String) : String :=
  String.mk (s.data.map Char.toLower)

/-- Model of JavaScript `o || d` for an optional string: `undefined` and
the empty string are falsy. -/
def jsOrStr (o : Option String) (d : String) : String :=
  match o with
  | some s => if s.isEmpty then d else s
  | none => d

/-! ## Intent classifier (`classifyRequest` in the intake agent) -/

/-- The three routing intents of the classifier. -/
inductive Intent where
  | knowledge
  | workflow
  | escalation
deriving DecidableEq, Repr

/-- String form of an intent, as passed to the metrics tracker. -/
def Intent.str : Intent → String
  | .knowledge => "knowledge"
  | .workflow => "workflow"
  | .escalation => "escalation"

/-- Keyword fallback of `classifyRequest` (the `catch` branch): checks
`ticket`, `close`, `status` for workflow, then `human`, `agent` for
escalation, on the lower-cased message, defaulting to knowledge. -/
def classifyFallback (message : String) : Intent :=
  let lowerMsg := strToLower message
  if strIncludes lowerMsg "ticket" || strIncludes lowerMsg "close" || strIncludes lowerMsg "status" then
    .workflow
  else if strIncludes lowerMsg "human" || strIncludes lowerMsg "agent" then
    .escalation
  else
    .knowledge

/-- Parse a raw label produced by the language model against the
`z.enum(["knowledge", "workflow", "escalation"])` schema; any other
string is a schema-validation failure. -/
def parseIntent : String → Option Intent
  | "knowledge" => some .knowledge
  | "workflow" => some .workflow
  | "escalation" => some .escalation
  | _ => none

/-- Embedding of `classifyRequest`: the primary path is the language
model call, represented by `llm` (an `Except` because `generateObject`
throws on provider errors, and carrying the raw label because schema
validation of an invalid label also throws, landing in the same
`catch`). On any failure the keyword fallback runs on the message. -/
def classifyRequest (llm : Except Unit String) (message : String) : Intent :=
  match llm with
  | .ok raw =>
    match parseIntent raw with
    | some intent => intent
    | none => classifyFallback message
  | .error _ => classifyFallback message

/-! ## Ticket store (`ticket-service.ts`) -/

/-- Ticket status vocabulary. The source value `open` is spelt `open_`
because `open` is a reserved word in Lean. -/
inductive TicketStatus where
  | open_
  | in_progress
  | resolved
  | closed
deriving DecidableEq, Repr

/-- String form of a status, as persisted and rendered in messages. -/
def TicketStatus.str : TicketStatus → String
  | .open_ => "open"
  | .in_progress => "in_progress"
  | .resolved => "resolved"
  | .closed => "closed"

/-- Ticket priority vocabulary. -/
inductive TicketPriority where
  | low
  | medium
  | high
  | critical
deriving DecidableEq, Repr

/-- String form of a priority. -/
def TicketPriority.str : TicketPriority → String
  | .low => "low"
  | .medium => "medium"
  | .high => "high"
  | .critical => "critical"

/-- Ticket category vocabulary. -/
inductive TicketCategory where
  | hardware
  | software
  | network
  | access
  | other
deriving DecidableEq, Repr

/-- String form of a category. -/
def TicketCategory.str : TicketCategory → String
  | .hardware => "hardware"
  | .software => "software"
  | .network => "network"
  | .access => "access"
  | .other => "other"

/-- The persisted ticket entity. -/
structure Ticket where
  id : Nat
  title : String
  description : String
  status : TicketStatus
  priority : TicketPriority
  category : TicketCategory
  createdAt : Nat
  updatedAt : Nat
deriving DecidableEq, Repr

/-- Parameters of `createTicket`; `priority` and `category` are optional
and default to `medium` and `other`. -/
structure CreateTicketParams where
  title : String
  description : String
  priority : Option TicketPriority
  category : Option TicketCategory
deriving Repr

/-- The ticket store: rows in insertion order plus the next SERIAL id.
A store is well-formed when ids are the SERIAL values `1, 2, …` below
`nextId`; see `TicketStore.WF`. -/
structure TicketStore where
  tickets : List Ticket
  nextId : Nat
deriving Repr

/-- The store as bootstrapped by `CREATE TABLE` (SERIAL starts at 1). -/
def TicketStore.empty : TicketStore :=
  { tickets := [], nextId := 1 }

/-- Embedding of `createTicket`: inserts a row with defaulted
`priority`/`category`, `status` defaulted to `open` and both timestamps
set to `NOW()`, returning the new row. -/
def createTicket (store : TicketStore) (now : Nat) (params : CreateTicketParams) :
    Ticket × TicketStore :=
  let t : Ticket :=
    { id := store.nextId
      title := params.title
      description := params.description
      status := .open_
      priority := params.priority.getD .medium
      category := params.category.getD .other
      createdAt := now
      updatedAt := now }
  (t, { tickets := store.tickets ++ [t], nextId := store.nextId + 1 })

/-- Embedding of `getTicket`: `SELECT … WHERE id = $1`, `null` when the
id does not resolve. -/
def getTicket (store : TicketStore) (ticketId : Nat) : Option Ticket :=
  store.tickets.find? (fun t => t.id == ticketId)

/-- Status filter of `listTickets` (`"all"` or one concrete status). -/
inductive StatusFilter where
  | all
  | only (s : TicketStatus)
deriving DecidableEq, Repr

/-- Does a ticket pass a status filter. -/
def matchesFilter (f : StatusFilter) (t : Ticket) : Bool :=
  match f with
  | .all => true
  | .only s => t.status == s

/-- Embedding of `listTickets`: `WHERE status …` then
`ORDER BY created_at DESC` (modelled as reverse insertion order) then
`LIMIT limit`. -/
def listTickets (store : TicketStore) (statusF : StatusFilter) (limit : Nat) : List Ticket :=
  ((store.tickets.reverse).filter (matchesFilter statusF)).take limit

/-- The declared default of the `limit` parameter of `listTickets`
(`limit: number = 10`). -/
def listTicketsDefaultLimit : Nat := 10

/-- `listTickets` invoked without an explicit limit. -/
def listTicketsDefault (store : TicketStore) (statusF : StatusFilter) : List Ticket :=
  listTickets store statusF listTicketsDefaultLimit

/-- Embedding of `updateTicketStatus`: `UPDATE … SET status, updated_at
WHERE id` returning the updated row, `null` when the id does not
resolve. -/
def updateTicketStatus (store : TicketStore) (now : Nat) (ticketId : Nat)
    (status : TicketStatus) : Option Ticket × TicketStore :=
  match store.tickets.find? (fun t => t.id == ticketId) with
  | none => (none, store)
  | some t =>
    let t' := { t with status := status, updatedAt := now }
    (some t',
     { store with tickets := store.tickets.map (fun u => if u.id == ticketId then t' else u) })

/-- Well-formedness of a store: ids are exactly the SERIAL values the
database would have assigned, in insertion order. -/
def TicketStore.WF (store : TicketStore) : Prop :=
  (∀ t ∈ store.tickets, 1 ≤ t.id ∧ t.id < store.nextId) ∧
  store.tickets.Pairwise (fun a b => a.id ≠ b.id)

/-- Result of the mock log analysis. -/
structure LogAnalysis where
  status : String
  findings : List String
deriving DecidableEq, Repr

/-- The four diagnosable systems of `analyze_logs`. -/
inductive SystemName where
  | vpn
  | email
  | network
  | authentication
deriving DecidableEq, Repr

/-- Upper-cased system name as rendered in the analysis message. -/
def SystemName.upperStr : SystemName → String
  | .vpn => "VPN"
  | .email => "EMAIL"
  | .network => "NETWORK"
  | .authentication => "AUTHENTICATION"

/-- Embedding of `analyzeSystemLogs`: the canned per-system status and
findings records. -/
def analyzeSystemLogs : SystemName → LogAnalysis
  | .vpn =>
    { status := "healthy"
      findings :=
        ["No connection failures detected in the last 24 hours",
         "Average connection time: 2.3 seconds",
         "98.5% uptime maintained"] }
  | .email =>
    { status := "warning"
      findings :=
        ["3 delivery delays detected (avg 45 seconds)",
         "Spam filter blocked 127 messages",
         "All mailbox sync operations successful"] }
  | .network =>
    { status := "healthy"
      findings :=
        ["Bandwidth utilization at 45%",
         "No packet loss detected",
         "DNS resolution time: 12ms average"] }
  | .authentication =>
    { status := "healthy"
      findings :=
        ["2 failed login attempts detected (normal range)",
         "SSO token refresh working correctly",
         "MFA adoption rate: 94%"] }

/-! ## Escalation handler (`escalateToHuman`) -/

/-- Result record of the escalation handler. -/
structure EscalationResult where
  ticketId : Nat
  message : String
  ticket : Ticket
deriving Repr

/-- The handoff message of `escalateToHuman`, embedding the new ticket
id twice. -/
def escalationMessage (id : Nat) : String :=
  "I understand you\x27d like to speak with a human agent. I\x27ve escalated your request.\n\n**Escalation Ticket: #" ++
    toString id ++
    "**\n\nA support specialist will reach out to you shortly. Expected response time:\n• Standard issues: Within 2 hours\n• Complex issues: Within 24 hours\n\nIn the meantime, you can:\n• Check ticket status by asking \x22What\x27s the status of ticket #" ++
    toString id ++
    "?\x22\n• View all your tickets at the Ticket Portal\n\nIf this is urgent, call the helpdesk directly at 555-0199."

/-- Embedding of `escalateToHuman`: unconditionally creates a
high-priority `other` ticket whose title truncates the query to 40
characters and whose description embeds the full query, and returns the
id, the handoff message and the ticket. -/
def escalateToHuman (store : TicketStore) (now : Nat) (query : String) :
    EscalationResult × TicketStore :=
  let (ticket, store') := createTicket store now
    { title := "Escalation: " ++ query.take 40 ++ "..."
      description := "User requested human assistance.\n\nOriginal request: " ++ query
      priority := some .high
      category := some .other }
  ({ ticketId := ticket.id, message := escalationMessage ticket.id, ticket := ticket }, store')

/-! ## Workflow agent (`executeWorkflow`) -/

/-- The seven action tags of the extraction schema. -/
inductive ActionTag where
  | create_ticket
  | check_status
  | list_tickets
  | update_status
  | password_reset
  | analyze_logs
  | unknown
deriving DecidableEq, Repr

/-- The optional parameters of the extraction schema. -/
structure ActionParams where
  title : Option String := none
  description : Option String := none
  priority : Option TicketPriority := none
  category : Option TicketCategory := none
  ticketId : Option Nat := none
  statusFilter : Option StatusFilter := none
  newStatus : Option TicketStatus := none
  system : Option SystemName := none
deriving Repr

/-- A structured action decision returned by the extraction call. -/
structure ActionDecision where
  action : ActionTag
  parameters : ActionParams
  reasoning : String
deriving Repr

/-- Payload of a workflow result (`Ticket | Ticket[] | analysis`). -/
inductive WorkflowData where
  | ticket (t : Ticket)
  | tickets (ts : List Ticket)
  | analysis (a : LogAnalysis)
deriving Repr

/-- The user-facing result of the workflow agent. -/
structure WorkflowResult where
  action : String
  success : Bool
  message : String
  data : Option WorkflowData
deriving Repr

/-- Local keyword pass that supplies `newStatus` when the model omitted
it (the chain of `lowerQuery.includes` checks in the `update_status`
branch). -/
def inferStatusFromKeywords (query : String) : Option TicketStatus :=
  let lowerQuery := strToLower query
  if strIncludes lowerQuery "close" || strIncludes lowerQuery "shut" || strIncludes lowerQuery "done" || strIncludes lowerQuery "complete" || strIncludes lowerQuery "finish" then
    some .closed
  else if strIncludes lowerQuery "resolve" || strIncludes lowerQuery "fix" then
    some .resolved
  else if strIncludes lowerQuery "progress" || strIncludes lowerQuery "start" || strIncludes lowerQuery "work" || strIncludes lowerQuery "begin" then
    some .in_progress
  else if strIncludes lowerQuery "reopen" || strIncludes lowerQuery "re-open" then
    some .open_
  else
    none

/-- Clarification message of the `check_status` branch. -/
def askTicketNumberMsg : String :=
  "I\x27d be happy to check your ticket status. Could you please provide the ticket number?"

/-- Clarification message of the `update_status` branch. -/
def askUpdateTicketNumberMsg : String :=
  "I\x27d be happy to update the ticket status. Could you please provide the ticket number?"

/-- Not-found message shared by `check_status` and `update_status`. -/
def ticketNotFoundMsg (id : Nat) : String :=
  "I couldn\x27t find ticket #" ++ toString id ++ ". Please verify the ticket number and try again."

/-- Clarification message when no target status can be determined. -/
def askStatusMsg : String :=
  "What status would you like to set? Options: open, in_progress, resolved, or closed."

/-- Fixed instructions of the `password_reset` branch. -/
def passwordResetMsg : String :=
  "I\x27ve initiated the password reset process. Here\x27s what to do next:\n\n1. Check your backup email for a verification code\n2. Visit https://password.example.com\n3. Enter your username and the verification code\n4. Create a new password (12+ characters, mix of letters, numbers, symbols)\n\nIf you don\x27t receive the email within 5 minutes, contact the helpdesk at 555-0199."

/-- Clarification message of the `analyze_logs` branch. -/
def askSystemMsg : String :=
  "Which system would you like me to analyze? Options: VPN, Email, Network, or Authentication."

/-- Guidance message of the `unknown` branch. -/
def unknownActionMsg : String :=
  "I\x27m not sure how to handle that workflow request. Could you please rephrase or try one of these:\n• Create a ticket for an issue\n• Check ticket status\n• Reset your password\n• Analyze system logs"

/-- Formatted details message of a successful `check_status`. -/
def ticketDetailsMsg (t : Ticket) : String :=
  "Ticket #" ++ toString t.id ++ ": \x22" ++ t.title ++ "\x22\n• Status: " ++ t.status.str ++
    "\n• Priority: " ++ t.priority.str ++ "\n• Category: " ++ t.category.str ++
    "\n• Created: " ++ toString t.createdAt

/-- One bullet line of the `list_tickets` rendering. -/
def ticketLine (t : Ticket) : String :=
  "• #" ++ toString t.id ++ ": " ++ t.title ++ " [" ++ t.status.str ++ "] - " ++ t.priority.str

/-- Embedding of the `switch (decision.action)` dispatch of
`executeWorkflow` (the body of the `try` after a successful
extraction). JS truthiness of `!decision.parameters.ticketId` makes a
ticket id of `0` behave like an absent one. -/
def dispatchAction (d : ActionDecision) (query : String) (now : Nat) (store : TicketStore) :
    WorkflowResult × TicketStore :=
  match d.action with
  | .create_ticket =>
    let (ticket, store') := createTicket store now
      { title := jsOrStr d.parameters.title (query.take 50)
        description := jsOrStr d.parameters.description query
        priority := some (d.parameters.priority.getD .medium)
        category := some (d.parameters.category.getD .other) }
    ({ action := "create_ticket"
       success := true
       message := "I\x27ve created ticket #" ++ toString ticket.id ++ " for your issue: \x22" ++
         ticket.title ++ "\x22. Priority: " ++ ticket.priority.str ++
         ". A technician will review and respond within 24 hours."
       data := some (.ticket ticket) }, store')
  | .check_status =>
    match d.parameters.ticketId with
    | none =>
      ({ action := "check_status", success := false, message := askTicketNumberMsg, data := none },
       store)
    | some tid =>
      if tid = 0 then
        ({ action := "check_status", success := false, message := askTicketNumberMsg, data := none },
         store)
      else
        match getTicket store tid with
        | none =>
          ({ action := "check_status", success := false, message := ticketNotFoundMsg tid,
             data := none }, store)
        | some t =>
          ({ action := "check_status", success := true, message := ticketDetailsMsg t,
             data := some (.ticket t) }, store)
  | .list_tickets =>
    let tickets := listTickets store (d.parameters.statusFilter.getD .all) 5
    if tickets.isEmpty then
      ({ action := "list_tickets", success := true,
         message := "There are no tickets matching your criteria.",
         data := some (.tickets []) }, store)
    else
      ({ action := "list_tickets", success := true,
         message := "Here are your recent tickets:\n" ++
           String.intercalate "\n" (tickets.map ticketLine),
         data := some (.tickets tickets) }, store)
  | .update_status =>
    match d.parameters.ticketId with
    | none =>
      ({ action := "update_status", success := false, message := askUpdateTicketNumberMsg,
         data := none }, store)
    | some tid =>
      if tid = 0 then
        ({ action := "update_status", success := false, message := askUpdateTicketNumberMsg,
           data := none }, store)
      else
        match (match d.parameters.newStatus with
               | some s => some s
               | none => inferStatusFromKeywords query) with
        | none =>
          ({ action := "update_status", success := false, message := askStatusMsg, data := none },
           store)
        | some st =>
          match updateTicketStatus store now tid st with
          | (none, store') =>
            ({ action := "update_status", success := false, message := ticketNotFoundMsg tid,
               data := none }, store')
          | (some t, store') =>
            ({ action := "update_status", success := true,
               message := "Done! Ticket #" ++ toString t.id ++ " has been updated to \x22" ++
                 t.status.str ++ "\x22."
               data := some (.ticket t) }, store')
  | .password_reset =>
    ({ action := "password_reset", success := true, message := passwordResetMsg, data := none },
     store)
  | .analyze_logs =>
    match d.parameters.system with
    | none =>
      ({ action := "analyze_logs", success := false, message := askSystemMsg, data := none }, store)
    | some sys =>
      let analysis := analyzeSystemLogs sys
      ({ action := "analyze_logs", success := true
         message := "**" ++ sys.upperStr ++ " System Analysis**\nStatus: " ++
           (if analysis.status == "healthy" then "✅ Healthy" else "⚠️ Warning") ++
           "\n\nFindings:\n" ++
           String.intercalate "\n" (analysis.findings.map (fun f => "• " ++ f))
         data := some (.analysis analysis) }, store)
  | .unknown =>
    ({ action := "unknown", success := false, message := unknownActionMsg, data := none }, store)

/-- Embedding of the `catch` branch of `executeWorkflow`: the coarse
keyword fallback that runs when extraction or dispatch threw. -/
def workflowFallback (query : String) (now : Nat) (store : TicketStore) :
    WorkflowResult × TicketStore :=
  let lowerQuery := strToLower query
  if strIncludes lowerQuery "ticket" || strIncludes lowerQuery "broken" || strIncludes lowerQuery "issue" || strIncludes lowerQuery "fix" then
    let (ticket, store') := createTicket store now
      { title := query.take 50
        description := query
        priority := some .medium
        category := some .other }
    ({ action := "create_ticket"
       success := true
       message := "I\x27ve created ticket #" ++ toString ticket.id ++
         " for your issue. A technician will review it within 24 hours."
       data := some (.ticket ticket) }, store')
  else if strIncludes lowerQuery "password" || strIncludes lowerQuery "reset" then
    ({ action := "password_reset"
       success := true
       message := "I\x27ve initiated the password reset process. Please check your backup email for a verification code."
       data := none }, store)
  else
    ({ action := "unknown"
       success := false
       message := "I encountered an error processing your request. Please try again or contact the helpdesk at 555-0199."
       data := none }, store)

/-- Embedding of `executeWorkflow`: extraction is the language-model
capability call (an `Except` since both provider errors and
schema-validation failures throw); on failure the `catch` runs the
coarse fallback, otherwise the decision is dispatched. -/
def executeWorkflow (decision : Except Unit ActionDecision) (query : String) (now : Nat)
    (store : TicketStore) : WorkflowResult × TicketStore :=
  match decision with
  | .ok d => dispatchAction d query now store
  | .error _ => workflowFallback query now store

/-! ## Metrics tracker (`metrics.ts`) -/

/-- The five metric event kinds. -/
inductive MetricType where
  | latency
  | routing
  | ticket
  | retrieval
  | error
deriving DecidableEq, Repr

/-- A recorded metric event. The free-form `metadata` record is
modelled as a list of string pairs. -/
structure MetricEvent where
  timestamp : Nat
  type : MetricType
  agent : Option String := none
  durationMs : Option Nat := none
  success : Option Bool := none
  metadata : List (String × String) := []
deriving DecidableEq, Repr

/-- The bound `maxEvents` of the tracker. -/
def maxEvents : Nat := 1000

/-- Keep only the most recent `maxEvents` entries
(`this.events.slice(-this.maxEvents)`). -/
def keepRecent (l : List MetricEvent) : List MetricEvent :=
  l.drop (l.length - maxEvents)

/-- Embedding of `MetricsTracker.addEvent`: push, then trim to the most
recent `maxEvents` when the bound is exceeded. -/
def addEvent (events : List MetricEvent) (e : MetricEvent) : List MetricEvent :=
  let evs := events ++ [e]
  if evs.length > maxEvents then keepRecent evs else evs

/-- Embedding of `MetricsTracker.recordRouting`: the event is marked
successful when `actualAgent === null` or the prediction matches. -/
def recordRoutingEvent (now : Nat) (predictedAgent : String) (actualAgent : Option String)
    (durationMs : Nat) : MetricEvent :=
  { timestamp := now
    type := .routing
    agent := some predictedAgent
    durationMs := some durationMs
    success := some (match actualAgent with
      | none => true
      | some a => predictedAgent == a)
    metadata := [("predictedAgent", predictedAgent), ("actualAgent", actualAgent.getD "null")] }

/-- The routing metric as recorded by the chat orchestrator:
`metrics.recordRouting(intent, null, …)`. -/
def chatRoutingEvent (now : Nat) (intent : Intent) (durationMs : Nat) : MetricEvent :=
  recordRoutingEvent now intent.str none durationMs

/-- The `routingAccuracy` aggregate of `getSummary` before rounding:
fraction of routing events whose `success` is truthy, `1` when there
are none. -/
def routingAccuracy (events : List MetricEvent) : ℚ :=
  let routingEvents := events.filter (fun e => e.type == MetricType.routing)
  if routingEvents.length = 0 then 1
  else ((routingEvents.filter (fun e => e.success.getD false)).length : ℚ) / routingEvents.length

/-- The rounded `routingAccuracy` as returned by `getSummary`
(`Math.round(x * 100) / 100`). -/
def roundedRoutingAccuracy (events : List MetricEvent) : ℚ :=
  ((round (routingAccuracy events * 100) : ℤ) : ℚ) / 100

/-! ## MCP direct-tool path (`list_tickets` tool) -/

/-- The schema default of the MCP `list_tickets` tool
(`z.number().default(10)`). -/
def mcpListTicketsDefaultLimit : Nat := 10

/-- Embedding of the MCP `list_tickets` tool body: the same filtered,
newest-first, limited query as the store. -/
def mcpListTickets (store : TicketStore) (statusF : StatusFilter) (limit : Nat) : List Ticket :=
  ((store.tickets.reverse).filter (matchesFilter statusF)).take limit

/-! ## Streaming orchestrator (the chat route `POST`) -/

/-- The three event kinds of the streaming protocol. -/
inductive StreamEvent where
  | status (agent : String) (progress : String)
  | text (content : String)
  | done
deriving DecidableEq, BEq, Repr

/-- The fixed apology text emitted on any internal error. -/
def apologyText : String :=
  "I apologize, but I encountered an error. Please try again."

/-- Stage status event emitted before invoking the selected handler. -/
def handlerStatusEvent : Intent → StreamEvent
  | .knowledge => .status "Knowledge" "Searching knowledge base..."
  | .workflow => .status "Workflow" "Processing your request..."
  | .escalation => .status "Escalation" "Connecting to human support..."

/-- Embedding of the event stream produced by the chat route `POST`:
classification and the selected handler may throw (`Except`), the
synthesis stream yields `chunks` and then either completes
(`synthOk = true`) or throws; the surrounding `try`/`catch` turns any
failure into the fixed apology text followed by the terminal event. -/
def orchestrate (classify : Except Unit Intent) (handler : Except Unit String)
    (chunks : List String) (synthOk : Bool) : List StreamEvent :=
  let intake := [StreamEvent.status "Intake" "Analyzing your request..."]
  match classify with
  | .error _ => intake ++ [.text apologyText, .done]
  | .ok intent =>
    let pre := intake ++ [handlerStatusEvent intent]
    match handler with
    | .error _ => pre ++ [.text apologyText, .done]
    | .ok _ =>
      let pre2 := pre ++ [StreamEvent.status "Response" "Generating response..."]
      let pre3 := pre2 ++ chunks.map StreamEvent.text
      if synthOk then pre3 ++ [.done] else pre3 ++ [.text apologyText, .done]

/-- Does some stage of the pipeline fail. -/
def orchestrateFails (classify : Except Unit Intent) (handler : Except Unit String)
    (synthOk : Bool) : Bool :=
  match classify, handler with
  | .error _, _ => true
  | .ok _, .error _ => true
  | .ok _, .ok _ => !synthOk

/-! ## Helper lemmas -/

theorem isPrefixOf_self_append (p t : List Char) : p.isPrefixOf (p ++ t) = true := by
  induction p with
  | nil => simp [List.isPrefixOf]
  | cons c cs ih => simp [List.isPrefixOf, ih]

theorem includesAux_middle (x p y : List Char) : includesAux (x ++ (p ++ y)) p = true := by
  induction x with
  | nil =>
    cases p with
    | nil =>
      cases y with
      | nil => rfl
      | cons c r => simp [includesAux, List.isPrefixOf]
    | cons d ps =>
      simp only [List.nil_append, includesAux]
      have h : (d :: ps).isPrefixOf ((d :: ps) ++ y) = true := isPrefixOf_self_append _ _
      simp only [List.cons_append] at h
      simp [h]
  | cons c cs ih =>
    simp only [List.cons_append, includesAux]
    have h : includesAux (cs.append (p ++ y)) p = true := ih
    simp only [h, Bool.or_true]

/-- A string contains `p` whenever its character list splits around
`p.toList`. -/
theorem strIncludes_of_toList_middle (s p : String) (x y : List Char)
    (h : s.toList = x ++ (p.toList ++ y)) : strIncludes s p = true := by
  rw [strIncludes, h]
  exact includesAux_middle _ _ _

theorem toList_append (a b : String) : (a ++ b).toList = a.toList ++ b.toList := rfl

theorem strIncludes_middle (a p b : String) : strIncludes (a ++ (p ++ b)) p = true := by
  exact strIncludes_of_toList_middle _ _ a.toList b.toList rfl

theorem addEvent_eq_keepRecent (evs : List MetricEvent) (e : MetricEvent) :
    addEvent evs e = keepRecent (evs ++ [e]) := by
  show (if (evs ++ [e]).length > maxEvents then keepRecent (evs ++ [e]) else evs ++ [e]) =
    keepRecent (evs ++ [e])
  split
  · rfl
  · next h =>
    unfold keepRecent
    rw [Nat.sub_eq_zero_of_le (Nat.not_lt.mp h), List.drop_zero]

theorem keepRecent_length_le (l : List MetricEvent) : (keepRecent l).length ≤ maxEvents := by
  simp only [keepRecent, List.length_drop]
  omega

theorem keepRecent_append (l m : List MetricEvent) :
    keepRecent (keepRecent l ++ m) = keepRecent (l ++ m) := by
  by_cases h : l.length ≤ maxEvents
  · have h0 : l.length - maxEvents = 0 := Nat.sub_eq_zero_of_le h
    simp [keepRecent, h0]
  · have hlt : maxEvents < l.length := Nat.not_le.mp h
    have hk : l.length - maxEvents ≤ l.length := Nat.sub_le _ _
    unfold keepRecent
    simp only [List.length_append, List.length_drop]
    have h1 : l.length - (l.length - maxEvents) = maxEvents := Nat.sub_sub_self (le_of_lt hlt)
    rw [h1]
    have h2 : maxEvents + m.length - maxEvents = m.length := by omega
    rw [h2]
    have h3 : l.length + m.length - maxEvents = (l.length - maxEvents) + m.length := by omega
    rw [h3, ← List.drop_drop, List.drop_append_of_le_length hk]

theorem foldl_addEvent_eq (es : List MetricEvent) :
    ∀ acc : List MetricEvent, acc.length ≤ maxEvents →
      es.foldl addEvent acc = keepRecent (acc ++ es) := by
  induction es with
  | nil =>
    intro acc h
    have h0 : acc.length - maxEvents = 0 := Nat.sub_eq_zero_of_le h
    simp [keepRecent, h0]
  | cons e es ih =>
    intro acc h
    have hlen : (addEvent acc e).length ≤ maxEvents := by
      rw [addEvent_eq_keepRecent]
      exact keepRecent_length_le _
    rw [List.foldl_cons, ih (addEvent acc e) hlen, addEvent_eq_keepRecent, keepRecent_append]
    rw [List.append_cons acc e es]

/-! ## Claim theorems -/

/-- C1: for every message, when the primary language-model
classification path raises or returns an invalid label,
`classifyRequest` answers by deterministic substring matching on the
lower-cased message: any of `ticket`, `close`, `status` gives workflow;
otherwise `human` or `agent` gives escalation; otherwise knowledge —
with the workflow keywords checked before the escalation keywords. -/
theorem classifyRequest_fallback_keywords (llm : Except Unit String) (message : String)
    (h : llm = .error () ∨ ∃ raw, llm = .ok raw ∧ parseIntent raw = none) :
    classifyRequest llm message =
      (if strIncludes (strToLower message) "ticket" || strIncludes (strToLower message) "close" ||
           strIncludes (strToLower message) "status" then
        Intent.workflow
      else if strIncludes (strToLower message) "human" || strIncludes (strToLower message) "agent" then
        Intent.escalation
      else
        Intent.knowledge) := by
  rcases h with h | ⟨raw, hraw, hparse⟩
  · subst h
    rfl
  · subst hraw
    simp [classifyRequest, hparse, classifyFallback]

/-- Witness for C1: a failing primary path on a message containing
`CLOSE` (checking case-insensitivity) classifies as workflow. -/
theorem classifyRequest_fallback_keywords_witness :
    classifyRequest (Except.error ()) "Please CLOSE my request" = Intent.workflow := by
  have h := classifyRequest_fallback_keywords (Except.error ()) "Please CLOSE my request"
    (Or.inl rfl)
  rw [h]
  decide

/-- C3: for every sequence of appended metric events, the tracker event
log stays within `maxEvents = 1000` entries, and after appending 1001
events it retains exactly the most recent 1000 in their original
relative order (the oldest event is dropped). -/
theorem metrics_log_bounded (es : List MetricEvent) :
    (es.foldl addEvent []).length ≤ 1000 ∧
    (es.length = 1001 → es.foldl addEvent [] = es.drop 1) := by
  have hfold : es.foldl addEvent [] = keepRecent ([] ++ es) :=
    foldl_addEvent_eq es [] (by simp [maxEvents])
  rw [List.nil_append] at hfold
  constructor
  · rw [hfold]
    exact keepRecent_length_le _
  · intro hlen
    rw [hfold]
    unfold keepRecent maxEvents
    rw [hlen]

/-- Witness for C3: appending 1001 copies of a concrete event leaves
exactly the last 1000 of them. -/
theorem metrics_log_bounded_witness :
    (List.replicate 1001 ({ timestamp := 0, type := MetricType.latency } : MetricEvent)).foldl
        addEvent [] =
      (List.replicate 1001 ({ timestamp := 0, type := MetricType.latency } : MetricEvent)).drop
        1 :=
  (metrics_log_bounded _).2 (List.length_replicate 1001 _)

/-- The escalation handoff message always contains the decimal ticket
id. -/
theorem escalationMessage_contains_id (id : Nat) :
    strIncludes (escalationMessage id) (toString id) = true := by
  apply strIncludes_of_toList_middle _ _
    ("I understand you\x27d like to speak with a human agent. I\x27ve escalated your request.\n\n**Escalation Ticket: #" : String).toList
    (("**\n\nA support specialist will reach out to you shortly. Expected response time:\n• Standard issues: Within 2 hours\n• Complex issues: Within 24 hours\n\nIn the meantime, you can:\n• Check ticket status by asking \x22What\x27s the status of ticket #" : String).toList ++
      ((toString id).toList ++
        ("?\x22\n• View all your tickets at the Ticket Portal\n\nIf this is urgent, call the helpdesk directly at 555-0199." : String).toList))
  simp only [escalationMessage, toList_append, List.append_assoc]

/-- C4: for every message, `escalateToHuman` appends exactly one ticket
to the store, with priority high and category other, title derived from
the first 40 characters of the message, description embedding the full
message; it returns the new ticket id, a handoff message containing
that id, and the ticket itself. -/
theorem escalateToHuman_spec (store : TicketStore) (now : Nat) (query : String) :
    (escalateToHuman store now query).2.tickets =
        store.tickets ++ [(escalateToHuman store now query).1.ticket] ∧
    (escalateToHuman store now query).1.ticket.priority = TicketPriority.high ∧
    (escalateToHuman store now query).1.ticket.category = TicketCategory.other ∧
    (escalateToHuman store now query).1.ticket.title =
        "Escalation: " ++ query.take 40 ++ "..." ∧
    (escalateToHuman store now query).1.ticket.description =
        "User requested human assistance.\n\nOriginal request: " ++ query ∧
    strIncludes (escalateToHuman store now query).1.ticket.description query = true ∧
    (escalateToHuman store now query).1.ticketId =
        (escalateToHuman store now query).1.ticket.id ∧
    strIncludes (escalateToHuman store now query).1.message
        (toString (escalateToHuman store now query).1.ticketId) = true := by
  refine ⟨rfl, rfl, rfl, rfl, rfl, ?_, rfl, ?_⟩
  · apply strIncludes_of_toList_middle _ _
      ("User requested human assistance.\n\nOriginal request: " : String).toList []
    simp [escalateToHuman, createTicket, String.toList]
  · exact escalationMessage_contains_id _

/-- A stream of text events contains no done event. -/
theorem count_done_map_text (chunks : List String) :
    (chunks.map StreamEvent.text).count StreamEvent.done = 0 := by
  induction chunks with
  | nil => rfl
  | cons c cs ih =>
    have hbe : (StreamEvent.text c == StreamEvent.done) = false := rfl
    rw [List.map_cons, List.count_cons]
    simp [ih, hbe]

/-- C2: every event stream produced by the streaming orchestrator
contains exactly one done event, that event is last, and whenever any
stage fails the stream ends with the fixed apology text event followed
by the done event. -/
theorem orchestrate_stream_terminal (classify : Except Unit Intent)
    (handler : Except Unit String) (chunks : List String) (synthOk : Bool) :
    (orchestrate classify handler chunks synthOk).count StreamEvent.done = 1 ∧
    (orchestrate classify handler chunks synthOk).getLast? = some StreamEvent.done ∧
    (orchestrateFails classify handler synthOk = true →
      [StreamEvent.text apologyText, StreamEvent.done] <:+
        orchestrate classify handler chunks synthOk) := by
  cases classify with
  | error u => exact ⟨rfl, rfl, fun _ => ⟨_, rfl⟩⟩
  | ok intent =>
    cases handler with
    | error e =>
      cases intent <;> exact ⟨rfl, rfl, fun _ => ⟨_, rfl⟩⟩
    | ok res =>
      cases synthOk with
      | false =>
        refine ⟨?_, ?_, fun _ => ?_⟩
        · show ((([StreamEvent.status "Intake" "Analyzing your request...",
              handlerStatusEvent intent,
              StreamEvent.status "Response" "Generating response..."] ++
                chunks.map StreamEvent.text) ++
              [StreamEvent.text apologyText, StreamEvent.done]).count StreamEvent.done) = 1
          rw [List.count_append, List.count_append, count_done_map_text]
          cases intent <;> rfl
        · show ((([StreamEvent.status "Intake" "Analyzing your request...",
              handlerStatusEvent intent,
              StreamEvent.status "Response" "Generating response..."] ++
                chunks.map StreamEvent.text) ++
              [StreamEvent.text apologyText, StreamEvent.done]).getLast?) =
            some StreamEvent.done
          rw [List.getLast?_append]
          rfl
        · show [StreamEvent.text apologyText, StreamEvent.done] <:+
            (([StreamEvent.status "Intake" "Analyzing your request...",
              handlerStatusEvent intent,
              StreamEvent.status "Response" "Generating response..."] ++
                chunks.map StreamEvent.text) ++
              [StreamEvent.text apologyText, StreamEvent.done])
          exact List.suffix_append _ _
      | true =>
        refine ⟨?_, ?_, fun hf => ?_⟩
        · show ((([StreamEvent.status "Intake" "Analyzing your request...",
              handlerStatusEvent intent,
              StreamEvent.status "Response" "Generating response..."] ++
                chunks.map StreamEvent.text) ++
              [StreamEvent.done]).count StreamEvent.done) = 1
          rw [List.count_append, List.count_append, count_done_map_text]
          cases intent <;> rfl
        · show ((([StreamEvent.status "Intake" "Analyzing your request...",
              handlerStatusEvent intent,
              StreamEvent.status "Response" "Generating response..."] ++
                chunks.map StreamEvent.text) ++
              [StreamEvent.done]).getLast?) = some StreamEvent.done
          exact List.getLast?_concat _
        · simp [orchestrateFails] at hf

/-- Witness for C2: a concrete failing classification stage still yields
one terminal done event and the apology/done suffix. -/
theorem orchestrate_stream_terminal_witness :
    (orchestrate (Except.error ()) (Except.error ()) [] true).count StreamEvent.done = 1 ∧
    [StreamEvent.text apologyText, StreamEvent.done] <:+
      orchestrate (Except.error ()) (Except.error ()) [] true :=
  ⟨(orchestrate_stream_terminal (Except.error ()) (Except.error ()) [] true).1,
   (orchestrate_stream_terminal (Except.error ()) (Except.error ()) [] true).2.2 rfl⟩

/-- C5: when action extraction (or dispatch) throws, `executeWorkflow`
degrades to the deterministic coarse fallback on the lower-cased
message: ticket/broken/issue/fix create a ticket from the raw message
(success), password/reset yield a successful password-reset result, and
anything else yields an unsuccessful unknown result; every message is a
fixed template, so no raw provider error reaches the caller. -/
theorem executeWorkflow_error_fallback (query : String) (now : Nat) (store : TicketStore) :
    ((strIncludes (strToLower query) "ticket" || strIncludes (strToLower query) "broken" ||
        strIncludes (strToLower query) "issue" || strIncludes (strToLower query) "fix") = true →
      (executeWorkflow (Except.error ()) query now store).1.action = "create_ticket" ∧
      (executeWorkflow (Except.error ()) query now store).1.success = true ∧
      (executeWorkflow (Except.error ()) query now store).1.data =
        some (WorkflowData.ticket
          (createTicket store now
            { title := query.take 50, description := query,
              priority := some .medium, category := some .other }).1) ∧
      (createTicket store now
        { title := query.take 50, description := query,
          priority := some .medium, category := some .other }).1.title = query.take 50 ∧
      (createTicket store now
        { title := query.take 50, description := query,
          priority := some .medium, category := some .other }).1.description = query ∧
      (executeWorkflow (Except.error ()) query now store).2.tickets =
        store.tickets ++
          [(createTicket store now
            { title := query.take 50, description := query,
              priority := some .medium, category := some .other }).1]) ∧
    ((strIncludes (strToLower query) "ticket" || strIncludes (strToLower query) "broken" ||
        strIncludes (strToLower query) "issue" || strIncludes (strToLower query) "fix") = false →
      (strIncludes (strToLower query) "password" || strIncludes (strToLower query) "reset") = true →
      (executeWorkflow (Except.error ()) query now store).1 =
        { action := "password_reset", success := true,
          message := "I\x27ve initiated the password reset process. Please check your backup email for a verification code."
          data := none } ∧
      (executeWorkflow (Except.error ()) query now store).2 = store) ∧
    ((strIncludes (strToLower query) "ticket" || strIncludes (strToLower query) "broken" ||
        strIncludes (strToLower query) "issue" || strIncludes (strToLower query) "fix") = false →
      (strIncludes (strToLower query) "password" || strIncludes (strToLower query) "reset") = false →
      (executeWorkflow (Except.error ()) query now store).1 =
        { action := "unknown", success := false,
          message := "I encountered an error processing your request. Please try again or contact the helpdesk at 555-0199."
          data := none } ∧
      (executeWorkflow (Except.error ()) query now store).2 = store) := by
  have he : executeWorkflow (Except.error ()) query now store =
      workflowFallback query now store := rfl
  refine ⟨fun h1 => ?_, fun h1 h2 => ?_, fun h1 h2 => ?_⟩
  · rw [he]
    unfold workflowFallback
    rw [if_pos h1]
    refine ⟨?_, ?_, ?_, ?_, ?_, ?_⟩ <;> simp [createTicket]
  · rw [he]
    unfold workflowFallback
    rw [if_neg (by simp [h1]), if_pos h2]
    exact ⟨rfl, rfl⟩
  · rw [he]
    unfold workflowFallback
    rw [if_neg (by simp [h1]), if_neg (by simp [h2])]
    exact ⟨rfl, rfl⟩

/-- Witness for C5: a concrete message containing `BROKEN` takes the
ticket-creation fallback branch. -/
theorem executeWorkflow_error_fallback_witness :
    (strIncludes (strToLower "My monitor is BROKEN") "ticket" ||
      strIncludes (strToLower "My monitor is BROKEN") "broken" ||
      strIncludes (strToLower "My monitor is BROKEN") "issue" ||
      strIncludes (strToLower "My monitor is BROKEN") "fix") = true ∧
    (executeWorkflow (Except.error ()) "My monitor is BROKEN" 5 TicketStore.empty).1.action =
      "create_ticket" :=
  ⟨by decide,
   ((executeWorkflow_error_fallback "My monitor is BROKEN" 5 TicketStore.empty).1
     (by decide)).1⟩

/-- The not-found reply always contains the phrase `couldn\x27t find`. -/
theorem strIncludes_ticketNotFoundMsg (id : Nat) :
    strIncludes (ticketNotFoundMsg id) "couldn\x27t find" = true := by
  apply strIncludes_of_toList_middle _ _ ("I " : String).toList
    ((" ticket #" : String).toList ++
      ((toString id).toList ++
        (". Please verify the ticket number and try again." : String).toList))
  have hsplit : ("I couldn\x27t find ticket #" : String).toList =
      ("I " : String).toList ++
        (("couldn\x27t find" : String).toList ++ (" ticket #" : String).toList) := rfl
  simp only [ticketNotFoundMsg, toList_append, hsplit, List.append_assoc]

/-- C6 counterexample: a `check_status` decision whose ticket id is
present (`some 0`) and does not resolve to any stored ticket is
answered with the clarification message, which does not contain
`couldn\x27t find` — JS truthiness of `!decision.parameters.ticketId`
treats the id 0 like an absent one. -/
theorem executeWorkflow_check_status_zero_id_counterexample :
    (({ ticketId := some 0 } : ActionParams).ticketId).isSome = true ∧
    getTicket TicketStore.empty 0 = none ∧
    (executeWorkflow
        (Except.ok { action := .check_status, parameters := { ticketId := some 0 }, reasoning := "" })
        "what is the status of ticket 0" 0 TicketStore.empty).1.success = false ∧
    strIncludes
      (executeWorkflow
        (Except.ok { action := .check_status, parameters := { ticketId := some 0 }, reasoning := "" })
        "what is the status of ticket 0" 0 TicketStore.empty).1.message "couldn\x27t find" =
      false := by
  decide

/-- C6 (amended): for a `check_status` action, an absent — or zero,
which JS truthiness conflates with absent — ticket id yields
success=false with the clarification message; a present nonzero id that
does not resolve yields success=false with a message containing
`couldn\x27t find` (and never throws: the embedding is total); a
resolving id yields success=true with the formatted ticket details. -/
theorem executeWorkflow_check_status_spec (p : ActionParams) (reasoning query : String)
    (now : Nat) (store : TicketStore) :
    ((p.ticketId = none ∨ p.ticketId = some 0) →
      (executeWorkflow (Except.ok { action := .check_status, parameters := p, reasoning := reasoning })
          query now store).1 =
        { action := "check_status", success := false, message := askTicketNumberMsg,
          data := none }) ∧
    (∀ tid, p.ticketId = some tid → tid ≠ 0 → getTicket store tid = none →
      (executeWorkflow (Except.ok { action := .check_status, parameters := p, reasoning := reasoning })
          query now store).1.success = false ∧
      (executeWorkflow (Except.ok { action := .check_status, parameters := p, reasoning := reasoning })
          query now store).1.message = ticketNotFoundMsg tid ∧
      strIncludes
        (executeWorkflow (Except.ok { action := .check_status, parameters := p, reasoning := reasoning })
          query now store).1.message "couldn\x27t find" = true) ∧
    (∀ tid t, p.ticketId = some tid → tid ≠ 0 → getTicket store tid = some t →
      (executeWorkflow (Except.ok { action := .check_status, parameters := p, reasoning := reasoning })
          query now store).1 =
        { action := "check_status", success := true, message := ticketDetailsMsg t,
          data := some (.ticket t) }) := by
  refine ⟨fun h => ?_, fun tid htid hne hget => ?_, fun tid t htid hne hget => ?_⟩
  · rcases h with h | h <;> simp [executeWorkflow, dispatchAction, h]
  · refine ⟨?_, ?_, ?_⟩ <;>
      simp [executeWorkflow, dispatchAction, htid, hne, hget, strIncludes_ticketNotFoundMsg]
  · simp [executeWorkflow, dispatchAction, htid, hne, hget]

/-- Witness for C6 (amended): a concrete nonzero unresolved id produces
the not-found reply. -/
theorem executeWorkflow_check_status_spec_witness :
    ((({ ticketId := some 7 } : ActionParams).ticketId = some 7) ∧ (7 : Nat) ≠ 0 ∧
      getTicket TicketStore.empty 7 = none) ∧
    ((executeWorkflow
        (Except.ok { action := .check_status, parameters := { ticketId := some 7 }, reasoning := "" })
        "status of ticket 7" 0 TicketStore.empty).1.success = false ∧
      (executeWorkflow
        (Except.ok { action := .check_status, parameters := { ticketId := some 7 }, reasoning := "" })
        "status of ticket 7" 0 TicketStore.empty).1.message = ticketNotFoundMsg 7 ∧
      strIncludes
        (executeWorkflow
          (Except.ok { action := .check_status, parameters := { ticketId := some 7 }, reasoning := "" })
          "status of ticket 7" 0 TicketStore.empty).1.message "couldn\x27t find" = true) :=
  ⟨⟨rfl, by decide, rfl⟩,
   (executeWorkflow_check_status_spec { ticketId := some 7 } "" "status of ticket 7" 0
     TicketStore.empty).2.1 7 rfl (by decide) rfl⟩

/-- Updating in place preserves lookup: searching the mapped row list
for `tid` finds the replacement exactly when the original search found
a row. -/
theorem find?_map_update (l : List Ticket) (tid : Nat) (t' : Ticket) (h : t'.id = tid) :
    (l.map (fun u => if u.id = tid then t' else u)).find? (fun u => u.id == tid) =
      (l.find? (fun u => u.id == tid)).map (fun _ => t') := by
  induction l with
  | nil => rfl
  | cons u l ih =>
    by_cases hu : u.id = tid
    · have hhead : (if u.id = tid then t' else u) = t' := by simp [hu]
      rw [List.map_cons, hhead, List.find?_cons_of_pos _ (by simp [h]),
        List.find?_cons_of_pos _ (by simp [hu])]
      rfl
    · have hhead : (if u.id = tid then t' else u) = u := by simp [hu]
      rw [List.map_cons, hhead, List.find?_cons_of_neg _ (by simp [hu]),
        List.find?_cons_of_neg _ (by simp [hu]), ih]

/-- C7: executing an `update_status` action with the id of a stored,
already-closed ticket and `newStatus = closed` succeeds and leaves the
stored ticket closed. -/
theorem executeWorkflow_update_closed_idempotent (p : ActionParams) (reasoning query : String)
    (now : Nat) (store : TicketStore) (t : Ticket)
    (hwf : store.WF) (ht : getTicket store t.id = some t)
    (hclosed : t.status = TicketStatus.closed)
    (hp : p.ticketId = some t.id) (hs : p.newStatus = some TicketStatus.closed) :
    (executeWorkflow (Except.ok { action := .update_status, parameters := p, reasoning := reasoning })
        query now store).1.success = true ∧
    ((getTicket
        (executeWorkflow (Except.ok { action := .update_status, parameters := p, reasoning := reasoning })
          query now store).2 t.id).map Ticket.status) = some TicketStatus.closed := by
  have hmem : t ∈ store.tickets := by
    have := List.find?_some ht
    exact List.mem_of_find?_eq_some ht
  have hid : t.id ≠ 0 := by
    have h1 := (hwf.1 t hmem).1
    omega
  have hfind : store.tickets.find? (fun u => u.id == t.id) = some t := ht
  constructor
  · simp [executeWorkflow, dispatchAction, hp, hs, hid, updateTicketStatus, hfind]
  · simp only [executeWorkflow, dispatchAction, hp, hs, updateTicketStatus, hfind, getTicket]
    simp [hid, -List.find?_map]
    have hmap := find?_map_update store.tickets t.id
      { id := t.id, title := t.title, description := t.description,
        status := TicketStatus.closed, priority := t.priority, category := t.category,
        createdAt := t.createdAt, updatedAt := now } rfl
    rw [hfind] at hmap
    exact ⟨_, hmap.trans rfl, rfl⟩

/-- Witness for C7 at a concrete one-ticket store. -/
theorem executeWorkflow_update_closed_idempotent_witness :
    (executeWorkflow
        (Except.ok { action := .update_status,
                     parameters := { ticketId := some 1, newStatus := some .closed },
                     reasoning := "" })
        "close ticket 1" 9
        { tickets := [{ id := 1, title := "t", description := "d", status := .closed,
                        priority := .medium, category := .other, createdAt := 3,
                        updatedAt := 3 }],
          nextId := 2 }).1.success = true ∧
    ((getTicket
        (executeWorkflow
          (Except.ok { action := .update_status,
                       parameters := { ticketId := some 1, newStatus := some .closed },
                       reasoning := "" })
          "close ticket 1" 9
          { tickets := [{ id := 1, title := "t", description := "d", status := .closed,
                          priority := .medium, category := .other, createdAt := 3,
                          updatedAt := 3 }],
            nextId := 2 }).2 1).map Ticket.status) = some TicketStatus.closed :=
  executeWorkflow_update_closed_idempotent
    { ticketId := some 1, newStatus := some .closed } "" "close ticket 1" 9
    { tickets := [{ id := 1, title := "t", description := "d", status := .closed,
                    priority := .medium, category := .other, createdAt := 3, updatedAt := 3 }],
      nextId := 2 }
    { id := 1, title := "t", description := "d", status := .closed, priority := .medium,
      category := .other, createdAt := 3, updatedAt := 3 }
    (by constructor
        · intro u hu
          simp at hu
          simp [hu]
        · simp)
    rfl rfl rfl rfl

/-- C8: a `list_tickets` action for which the store query returns no
rows succeeds with the empty data list and the no-tickets message. -/
theorem executeWorkflow_list_empty (p : ActionParams) (reasoning query : String) (now : Nat)
    (store : TicketStore)
    (h : listTickets store (p.statusFilter.getD .all) 5 = []) :
    (executeWorkflow (Except.ok { action := .list_tickets, parameters := p, reasoning := reasoning })
        query now store).1 =
      { action := "list_tickets", success := true,
        message := "There are no tickets matching your criteria.",
        data := some (WorkflowData.tickets []) } ∧
    (executeWorkflow (Except.ok { action := .list_tickets, parameters := p, reasoning := reasoning })
        query now store).2 = store := by
  constructor <;> simp [executeWorkflow, dispatchAction, h]

/-- Witness for C8 at the empty store. -/
theorem executeWorkflow_list_empty_witness :
    (executeWorkflow
        (Except.ok { action := .list_tickets, parameters := {}, reasoning := "" })
        "list my tickets" 0 TicketStore.empty).1 =
      { action := "list_tickets", success := true,
        message := "There are no tickets matching your criteria.",
        data := some (WorkflowData.tickets []) } :=
  (executeWorkflow_list_empty {} "" "list my tickets" 0 TicketStore.empty rfl).1

/-- C9: the LLM-orchestrated workflow path always queries the store
with a cap of 5, so at most 5 tickets are ever returned there; the
direct-tool path and the store function default their cap to 10; every
list result is a newest-first prefix of the filtered reverse-
chronological row list. -/
theorem list_tickets_caps (p : ActionParams) (reasoning query : String) (now : Nat)
    (store : TicketStore) :
    ((executeWorkflow (Except.ok { action := .list_tickets, parameters := p, reasoning := reasoning })
        query now store).1.data =
      some (WorkflowData.tickets (listTickets store (p.statusFilter.getD .all) 5))) ∧
    (listTickets store (p.statusFilter.getD .all) 5).length ≤ 5 ∧
    listTicketsDefaultLimit = 10 ∧
    mcpListTicketsDefaultLimit = 10 ∧
    (∀ f, listTicketsDefault store f = listTickets store f 10) ∧
    (∀ f, (listTicketsDefault store f).length ≤ 10) ∧
    (∀ f lim, mcpListTickets store f lim = listTickets store f lim) ∧
    (∀ f lim, listTickets store f lim <+: (store.tickets.reverse.filter (matchesFilter f))) := by
  refine ⟨?_, List.length_take_le _ _, rfl, rfl, fun f => rfl, fun f => List.length_take_le _ _,
    fun f lim => rfl, fun f lim => List.take_prefix _ _⟩
  by_cases h : listTickets store (p.statusFilter.getD .all) 5 = [] <;>
    simp [executeWorkflow, dispatchAction, h]

/-- Every routing event recorded by the chat pipeline carries
`actualAgent = null` and is therefore marked successful. -/
theorem chatRoutingEvent_success (now : Nat) (intent : Intent) (durationMs : Nat) :
    (chatRoutingEvent now intent durationMs).success = some true := rfl

/-- C10: `recordRouting` marks an event successful whenever the actual
agent is null; the chat orchestrator always records with null, so every
routing event of the chat pipeline has success=true and the
routing-accuracy summary over such events equals 1 (also after the
summary rounding). -/
theorem chat_routing_accuracy_one (now : Nat) (predictedAgent : String) (durationMs : Nat)
    (entries : List (Nat × Intent × Nat)) :
    (recordRoutingEvent now predictedAgent none durationMs).success = some true ∧
    ((entries.map (fun x => chatRoutingEvent x.1 x.2.1 x.2.2)).all
      (fun e => e.success == some true)) = true ∧
    routingAccuracy (entries.map (fun x => chatRoutingEvent x.1 x.2.1 x.2.2)) = 1 ∧
    roundedRoutingAccuracy (entries.map (fun x => chatRoutingEvent x.1 x.2.1 x.2.2)) = 1 := by
  have hall : ∀ e ∈ entries.map (fun x => chatRoutingEvent x.1 x.2.1 x.2.2),
      e.type = MetricType.routing ∧ e.success = some true := by
    intro e he
    rcases List.mem_map.mp he with ⟨x, _, rfl⟩
    exact ⟨rfl, rfl⟩
  have hf1 : (entries.map (fun x => chatRoutingEvent x.1 x.2.1 x.2.2)).filter
      (fun e => e.type == MetricType.routing) =
      entries.map (fun x => chatRoutingEvent x.1 x.2.1 x.2.2) := by
    rw [List.filter_eq_self]
    intro e he
    simp [(hall e he).1]
  have hf2 : (entries.map (fun x => chatRoutingEvent x.1 x.2.1 x.2.2)).filter
      (fun e => e.success.getD false) =
      entries.map (fun x => chatRoutingEvent x.1 x.2.1 x.2.2) := by
    rw [List.filter_eq_self]
    intro e he
    rw [(hall e he).2]
    rfl
  have hacc : routingAccuracy (entries.map (fun x => chatRoutingEvent x.1 x.2.1 x.2.2)) = 1 := by
    simp only [routingAccuracy]
    rw [hf1, hf2]
    by_cases h0 : (entries.map (fun x => chatRoutingEvent x.1 x.2.1 x.2.2)).length = 0
    · simp [h0]
    · rw [if_neg h0]
      exact div_self (by exact_mod_cast h0)
  refine ⟨rfl, ?_, hacc, ?_⟩
  · rw [List.all_eq_true]
    intro e he
    rw [(hall e he).2]
    rfl
  · unfold roundedRoutingAccuracy
    rw [hacc]
    norm_num

end ChatBot
